import Mathlib

/-!
Verification of the command-execution tool in `src/server.py`.

The whole program is one asynchronous function `run_command(command)` that

1. spawns `command` through the platform shell with both output streams piped
   (`asyncio.create_subprocess_shell`),
2. awaits completion and collects the full byte content of both streams
   (`process.communicate()`),
3. decodes each non-empty byte stream with `bytes.decode()` (UTF-8 strict,
   the fixed default of the Python method),
4. returns a dict with keys `stdout`, `stderr`, `return_code`, and
5. converts any raised `Exception` into the dict
   `(stdout = empty, stderr = prefixed message, return_code = -1)`.

The embedding makes the interaction with the operating system explicit: the
outcome of one invocation is a value of type `Env` describing what the world
did at the two await points (process creation and stream collection), where
each step either succeeds, raises an ordinary `Exception` (carrying the text
of `str(e)`), or raises a `BaseException` that is outside the
`except Exception` clause (task cancellation, keyboard interrupt).
`run_command` is then a pure function of the command and this environment,
returning `Except String PyDict`: `Except.ok` is a returned dict,
`Except.error` a fault propagated to the caller.
-/

/-- A Python value appearing in the returned dict: the program only ever
stores strings and integers there. -/
inductive PyVal where
  | vstr (s : String)
  | vint (n : Int)
deriving DecidableEq

/-- The `Dict[str, Any]` returned by `run_command`, as an association list in
literal order. -/
abbrev PyDict := List (String × PyVal)

/-- Dictionary key lookup. -/
def dictGet : PyDict → String → Option PyVal
  | [], _ => none
  | (k, v) :: rest, key => if k = key then some v else dictGet rest key

/-- What `process.communicate()` handed back together with the process
object: the full captured bytes of both streams and `process.returncode`.
`asyncio` reports the exit status as an `int`; on POSIX a child terminated
by signal N is reported as `-N`, so the value ranges over `Int`. -/
structure ProcessOutcome where
  stdoutBytes : List Nat
  stderrBytes : List Nat
  returncode : Int
deriving DecidableEq

/-- Outcome of `await asyncio.create_subprocess_shell(...)`: a process handle
was obtained, or the step raised an ordinary `Exception` with description
`msg`, or it raised a `BaseException` (for example `CancelledError` or
`KeyboardInterrupt`) that `except Exception` does not catch. -/
inductive SpawnStep where
  | ok
  | exc (msg : String)
  | base (msg : String)
deriving DecidableEq

/-- Outcome of `await process.communicate()`: the streams drained and the
child exited with the given `ProcessOutcome`, or the step raised an ordinary
`Exception`, or a `BaseException`. -/
inductive CommStep where
  | ok (out : ProcessOutcome)
  | exc (msg : String)
  | base (msg : String)
deriving DecidableEq

/-- The observable behaviour of the operating system and runtime during one
invocation: what happened at each of the two await points. -/
structure Env where
  spawn : SpawnStep
  comm : CommStep
deriving DecidableEq

/-- Python truthiness of a bytes object: non-empty. -/
def pyTruthy (bs : List Nat) : Bool := !bs.isEmpty

/-- Strict UTF-8 decoding of a byte sequence, following the exact validity
rules `bytes.decode()` applies with its default arguments: continuation
bytes in `0x80..0xBF`, no overlong encodings, no surrogate code points, no
code point above `0x10FFFF`. Returns `none` where Python raises
`UnicodeDecodeError`. -/
def utf8DecodeChars : List Nat → Option (List Char)
  | [] => some []
  | b :: rest =>
    if b < 0x80 then
      (utf8DecodeChars rest).map (fun cs => Char.ofNat b :: cs)
    else if 0xC2 ≤ b ∧ b ≤ 0xDF then
      match rest with
      | [] => none
      | b2 :: rest2 =>
        if 0x80 ≤ b2 ∧ b2 ≤ 0xBF then
          (utf8DecodeChars rest2).map
            (fun cs => Char.ofNat ((b - 0xC0) * 0x40 + (b2 - 0x80)) :: cs)
        else none
    else if 0xE0 ≤ b ∧ b ≤ 0xEF then
      match rest with
      | b2 :: b3 :: rest3 =>
        if (if b = 0xE0 then 0xA0 else 0x80) ≤ b2 ∧
            b2 ≤ (if b = 0xED then 0x9F else 0xBF) ∧
            0x80 ≤ b3 ∧ b3 ≤ 0xBF then
          (utf8DecodeChars rest3).map
            (fun cs =>
              Char.ofNat ((b - 0xE0) * 0x1000 + (b2 - 0x80) * 0x40 + (b3 - 0x80)) :: cs)
        else none
      | _ => none
    else if 0xF0 ≤ b ∧ b ≤ 0xF4 then
      match rest with
      | b2 :: b3 :: b4 :: rest4 =>
        if (if b = 0xF0 then 0x90 else 0x80) ≤ b2 ∧
            b2 ≤ (if b = 0xF4 then 0x8F else 0xBF) ∧
            0x80 ≤ b3 ∧ b3 ≤ 0xBF ∧ 0x80 ≤ b4 ∧ b4 ≤ 0xBF then
          (utf8DecodeChars rest4).map
            (fun cs =>
              Char.ofNat ((b - 0xF0) * 0x40000 + (b2 - 0x80) * 0x1000 +
                (b3 - 0x80) * 0x40 + (b4 - 0x80)) :: cs)
        else none
      | _ => none
    else none

/-- Stands in for the free-text description `str(e)` of the
`UnicodeDecodeError` the runtime raises on invalid input; no property below
depends on its exact wording. -/
def decodeErrMsg (bs : List Nat) : String :=
  "utf-8 codec cannot decode bytes " ++ toString bs

/-- `bs.decode()` with default arguments: UTF-8 strict. `Except.error`
carries the description of the raised `UnicodeDecodeError`. -/
def pyDecode (bs : List Nat) : Except String String :=
  match utf8DecodeChars bs with
  | some cs => Except.ok (String.mk cs)
  | none => Except.error (decodeErrMsg bs)

/-- The expression `bs.decode() if bs else ""` from the dict literal, with
the `decode` method abstracted as `dec` so that independence from the
decoder can be stated for the empty case. -/
def decodeOrEmpty (dec : List Nat → Except String String) (bs : List Nat) :
    Except String String :=
  if pyTruthy bs then dec bs else Except.ok ""

/-- The dict literal returned on the normal path:
keys `stdout`, `stderr`, `return_code` in source order. -/
def okResult (so se : String) (rc : Int) : PyDict :=
  [("stdout", PyVal.vstr so), ("stderr", PyVal.vstr se),
    ("return_code", PyVal.vint rc)]

/-- The dict literal returned by the `except Exception` handler:
empty stdout, the message built from `str(e)`, and the sentinel `-1`. -/
def errResult (m : String) : PyDict :=
  [("stdout", PyVal.vstr ""), ("stderr", PyVal.vstr ("Error executing command: " ++ m)),
    ("return_code", PyVal.vint (-1))]

/-- The body of `run_command`, with the `decode` method of the captured
bytes abstracted as `dec`. Mirrors the source control flow: the whole
sequence sits in one `try`; an ordinary `Exception` at any step reaches the
handler and produces `errResult`; a `BaseException` at an await point
propagates (`Except.error`). On the normal path the dict literal evaluates
its entries in order, so stdout is decoded before stderr. -/
def run_command_with (dec : List Nat → Except String String)
    (command : String) (env : Env) : Except String PyDict :=
  match env.spawn with
  | SpawnStep.base m => Except.error m
  | SpawnStep.exc m => Except.ok (errResult m)
  | SpawnStep.ok =>
    match env.comm with
    | CommStep.base m => Except.error m
    | CommStep.exc m => Except.ok (errResult m)
    | CommStep.ok out =>
      match decodeOrEmpty dec out.stdoutBytes with
      | Except.error m => Except.ok (errResult m)
      | Except.ok so =>
        match decodeOrEmpty dec out.stderrBytes with
        | Except.error m => Except.ok (errResult m)
        | Except.ok se => Except.ok (okResult so se out.returncode)

/-- `run_command` as in the source: the abstracted decoder instantiated with
the real `bytes.decode()` semantics. -/
def run_command (command : String) (env : Env) : Except String PyDict :=
  run_command_with pyDecode command env

/-- The description of the first ordinary `Exception` raised during the
invocation described by `env`, if any: at process creation, stream
collection, or while decoding either stream. `BaseException` outcomes are
not ordinary faults and yield `none`. -/
def firstFault (env : Env) : Option String :=
  match env.spawn with
  | SpawnStep.base _ => none
  | SpawnStep.exc m => some m
  | SpawnStep.ok =>
    match env.comm with
    | CommStep.base _ => none
    | CommStep.exc m => some m
    | CommStep.ok out =>
      match decodeOrEmpty pyDecode out.stdoutBytes with
      | Except.error m => some m
      | Except.ok _ =>
        match decodeOrEmpty pyDecode out.stderrBytes with
        | Except.error m => some m
        | Except.ok _ => none

/-- True when neither await point raised a `BaseException` outside the
`Exception` class (no cancellation, no keyboard interrupt). -/
def noBaseFault (env : Env) : Bool :=
  (match env.spawn with
   | SpawnStep.base _ => false
   | _ => true) &&
  (match env.comm with
   | CommStep.base _ => false
   | _ => true)

/-- Two invocations of the tool with the same command against the same
observed world. -/
def runTwice (command : String) (env : Env) :
    Except String PyDict × Except String PyDict :=
  (run_command command env, run_command command env)

/-- Modelled from the spec: the spec asserts that captured bytes are decoded
with the platform/locale default text encoding, an encoding that varies by
platform and is not named in the source. `decodesWithPlatformDefault pdec`
is that assertion for a platform whose default decoder is `pdec`: on every
invocation that spawned, was awaited, and returned normally, a non-empty
captured stdout appears in the result decoded by `pdec`. -/
def decodesWithPlatformDefault (pdec : List Nat → Except String String) : Prop :=
  ∀ (command : String) (env : Env) (out : ProcessOutcome) (s se : String),
    env.spawn = SpawnStep.ok → env.comm = CommStep.ok out →
    out.stdoutBytes ≠ [] →
    pdec out.stdoutBytes = Except.ok s →
    decodeOrEmpty pyDecode out.stderrBytes = Except.ok se →
    ∃ d, run_command command env = Except.ok d ∧
      dictGet d "stdout" = some (PyVal.vstr s)

/-- Latin-1 (ISO-8859-1) decoding: every byte maps to the code point of the
same value. The default text encoding of many non-UTF-8 POSIX locales and
close to the legacy Windows default. -/
def latin1Decode (bs : List Nat) : Except String String :=
  if bs.all (fun b => b < 256) then
    Except.ok (String.mk (bs.map Char.ofNat))
  else Except.error "latin-1 codec cannot decode bytes"

/-- The sentinel-exclusivity reading of the spec: on an invocation whose
process was successfully spawned and awaited, the returned dict never
carries `return_code = -1`. -/
def sentinelExclusive : Prop :=
  ∀ (command : String) (env : Env) (out : ProcessOutcome) (d : PyDict),
    env.spawn = SpawnStep.ok → env.comm = CommStep.ok out →
    run_command command env = Except.ok d →
    dictGet d "return_code" ≠ some (PyVal.vint (-1))

/-- C1: for every command and every invocation during which an ordinary
fault (of the `Exception` class) is raised at process creation, stream
collection, or decoding, `run_command` catches it and returns the dict with
empty stdout, stderr equal to the prefix `Error executing command: `
followed by the description of the fault, and return code `-1`; the fault
is returned, never propagated. -/
theorem run_command_catches_faults (command : String) (env : Env) (m : String)
    (h : firstFault env = some m) :
    run_command command env = Except.ok (errResult m) := by
  obtain ⟨spawn, comm⟩ := env
  cases spawn with
  | base m2 => simp [firstFault] at h
  | exc m2 =>
    simp [firstFault] at h
    subst h
    rfl
  | ok =>
    cases comm with
    | base m2 => simp [firstFault] at h
    | exc m2 =>
      simp [firstFault] at h
      subst h
      rfl
    | ok out =>
      cases h1 : decodeOrEmpty pyDecode out.stdoutBytes with
      | error m2 =>
        simp [firstFault, h1] at h
        subst h
        simp [run_command, run_command_with, h1]
      | ok so =>
        cases h2 : decodeOrEmpty pyDecode out.stderrBytes with
        | error m2 =>
          simp [firstFault, h1, h2] at h
          subst h
          simp [run_command, run_command_with, h1, h2]
        | ok se =>
          simp [firstFault, h1, h2] at h

/-- C1 witness: a concrete spawn failure is caught and shaped as specified. -/
theorem run_command_catches_faults_w :
    firstFault ⟨SpawnStep.exc "No such file or directory", CommStep.ok ⟨[], [], 0⟩⟩
        = some "No such file or directory" ∧
    run_command "doesnotexist"
        ⟨SpawnStep.exc "No such file or directory", CommStep.ok ⟨[], [], 0⟩⟩
      = Except.ok (errResult "No such file or directory") :=
  ⟨rfl,
    run_command_catches_faults "doesnotexist"
      ⟨SpawnStep.exc "No such file or directory", CommStep.ok ⟨[], [], 0⟩⟩
      "No such file or directory" rfl⟩

/-- C2: whenever the child process is successfully spawned and awaited and
both captured streams decode, the returned dict holds the decoded stdout,
the decoded stderr, and the exit code the process reported. -/
theorem run_command_success_shape (command : String) (env : Env)
    (out : ProcessOutcome) (so se : String)
    (hs : env.spawn = SpawnStep.ok) (hc : env.comm = CommStep.ok out)
    (h1 : decodeOrEmpty pyDecode out.stdoutBytes = Except.ok so)
    (h2 : decodeOrEmpty pyDecode out.stderrBytes = Except.ok se) :
    run_command command env = Except.ok (okResult so se out.returncode) := by
  obtain ⟨spawn, comm⟩ := env
  cases hs
  cases hc
  simp [run_command, run_command_with, h1, h2]

/-- C2 witness: a command printing a fixed line to stdout and exiting 0
(the bytes of the text `hello` plus a newline) yields exactly that text,
empty stderr, and return code 0. -/
theorem run_command_success_shape_w :
    decodeOrEmpty pyDecode [104, 101, 108, 108, 111, 10] = Except.ok "hello\n" ∧
    decodeOrEmpty pyDecode [] = Except.ok "" ∧
    run_command "echo hello"
        ⟨SpawnStep.ok, CommStep.ok ⟨[104, 101, 108, 108, 111, 10], [], 0⟩⟩
      = Except.ok (okResult "hello\n" "" 0) :=
  ⟨rfl, rfl,
    run_command_success_shape "echo hello"
      ⟨SpawnStep.ok, CommStep.ok ⟨[104, 101, 108, 108, 111, 10], [], 0⟩⟩
      ⟨[104, 101, 108, 108, 111, 10], [], 0⟩ "hello\n" "" rfl rfl rfl rfl⟩

/-- C3 counterexample: the sentinel `-1` is not exclusive to invocation
faults. `asyncio` reports a POSIX child terminated by signal N as
`returncode = -N`, so a shell that kills itself with SIGHUP (signal 1) is a
successfully spawned and awaited invocation whose reported exit status is
`-1`; `run_command` passes it through, refuting exclusivity. -/
theorem sentinel_not_exclusive : ¬ sentinelExclusive := by
  intro h
  exact h "kill -HUP $$" ⟨SpawnStep.ok, CommStep.ok ⟨[], [], -1⟩⟩
    ⟨[], [], -1⟩ (okResult "" "" (-1)) rfl rfl rfl rfl

/-- C3 amended: on every invocation whose process was successfully spawned
and awaited and whose streams decode, the returned dict carries exactly the
exit status the process object reported and the decoded stderr — the
synthetic-message path is never taken on this path. The value `-1` is
however not reserved: a signal-1 termination is reported as `-1` too. -/
theorem success_reports_child_code (command : String) (env : Env)
    (out : ProcessOutcome) (so se : String)
    (hs : env.spawn = SpawnStep.ok) (hc : env.comm = CommStep.ok out)
    (h1 : decodeOrEmpty pyDecode out.stdoutBytes = Except.ok so)
    (h2 : decodeOrEmpty pyDecode out.stderrBytes = Except.ok se) :
    ∃ d, run_command command env = Except.ok d ∧
      dictGet d "return_code" = some (PyVal.vint out.returncode) ∧
      dictGet d "stderr" = some (PyVal.vstr se) := by
  obtain ⟨spawn, comm⟩ := env
  cases hs
  cases hc
  refine ⟨okResult so se out.returncode, ?_, rfl, rfl⟩
  simp [run_command, run_command_with, h1, h2]

/-- C3 amended witness: a nonexistent command reported by the shell itself —
exit status 127 and an error line on stderr — is returned verbatim, not
through the sentinel path. -/
theorem success_reports_child_code_w :
    decodeOrEmpty pyDecode [110, 111, 10] = Except.ok "no\n" ∧
    (∃ d, run_command "nosuchprogram"
        ⟨SpawnStep.ok, CommStep.ok ⟨[], [110, 111, 10], 127⟩⟩ = Except.ok d ∧
      dictGet d "return_code" = some (PyVal.vint 127) ∧
      dictGet d "stderr" = some (PyVal.vstr "no\n")) :=
  ⟨rfl,
    success_reports_child_code "nosuchprogram"
      ⟨SpawnStep.ok, CommStep.ok ⟨[], [110, 111, 10], 127⟩⟩
      ⟨[], [110, 111, 10], 127⟩ "" "no\n" rfl rfl rfl rfl⟩

/-- C4: on a successfully spawned and awaited invocation, a stream that
captured zero bytes contributes the empty string to the result without any
decode operation: the statement holds for every decoder `dec`, including
ones that fail on every input, so the decoder is never consulted for an
empty stream. When the other stream decodes to `so`, the normal dict is
returned; when both streams are empty the result is
`(stdout = "", stderr = "", return_code = exit status)`. -/
theorem empty_stream_gives_empty_string
    (dec : List Nat → Except String String) (command : String) (env : Env)
    (out : ProcessOutcome)
    (hs : env.spawn = SpawnStep.ok) (hc : env.comm = CommStep.ok out) :
    (out.stdoutBytes = [] →
      ∃ d, run_command_with dec command env = Except.ok d ∧
        dictGet d "stdout" = some (PyVal.vstr "")) ∧
    (∀ so, decodeOrEmpty dec out.stdoutBytes = Except.ok so →
      out.stderrBytes = [] →
      run_command_with dec command env = Except.ok (okResult so "" out.returncode)) ∧
    (out.stdoutBytes = [] → out.stderrBytes = [] →
      run_command_with dec command env = Except.ok (okResult "" "" out.returncode)) := by
  obtain ⟨spawn, comm⟩ := env
  cases hs
  cases hc
  refine ⟨?_, ?_, ?_⟩
  · intro ho
    have hdo : decodeOrEmpty dec out.stdoutBytes = Except.ok "" := by rw [ho]; rfl
    cases h2 : decodeOrEmpty dec out.stderrBytes with
    | error m =>
      exact ⟨errResult m, by simp [run_command_with, hdo, h2], rfl⟩
    | ok se =>
      exact ⟨okResult "" se out.returncode,
        by simp [run_command_with, hdo, h2], rfl⟩
  · intro so h1 he
    have hde : decodeOrEmpty dec out.stderrBytes = Except.ok "" := by rw [he]; rfl
    simp [run_command_with, h1, hde]
  · intro ho he
    have hdo : decodeOrEmpty dec out.stdoutBytes = Except.ok "" := by rw [ho]; rfl
    have hde : decodeOrEmpty dec out.stderrBytes = Except.ok "" := by rw [he]; rfl
    simp [run_command_with, hdo, hde]

/-- C4 witness: with a decoder that fails on every input and a child that
produced no bytes on either stream and exited 0, the result is still the
normal `("", "", 0)` dict — so no decode was performed on the empty
streams. -/
theorem empty_stream_gives_empty_string_w :
    run_command_with (fun _ => Except.error "boom") "true"
        ⟨SpawnStep.ok, CommStep.ok ⟨[], [], 0⟩⟩
      = Except.ok (okResult "" "" 0) :=
  (empty_stream_gives_empty_string (fun _ => Except.error "boom") "true"
      ⟨SpawnStep.ok, CommStep.ok ⟨[], [], 0⟩⟩ ⟨[], [], 0⟩ rfl rfl).2.2 rfl rfl

/-- C5 counterexample: the source decodes with `bytes.decode()`, whose
encoding is fixed to UTF-8 by the language, not taken from the platform.
On a platform whose locale default encoding is Latin-1, the bytes
`[0xC3, 0xA9]` decode under the platform default to the two characters
`Ã©`, but the program returns the single character `é` (their UTF-8
reading), so the platform-default claim fails. -/
theorem decode_not_platform_default : ¬ decodesWithPlatformDefault latin1Decode := by
  intro h
  obtain ⟨d, hd, hstd⟩ := h "printf accent"
    ⟨SpawnStep.ok, CommStep.ok ⟨[195, 169], [], 0⟩⟩
    ⟨[195, 169], [], 0⟩ "Ã©" "" rfl rfl (by decide) rfl rfl
  have hd2 : Except.ok d = Except.ok (okResult "é" "" 0) := hd.symm.trans rfl
  have he : d = okResult "é" "" 0 := by injection hd2
  subst he
  exact absurd hstd (by decide)

/-- C5 amended: on every successfully spawned and awaited invocation whose
streams decode, a non-empty captured stdout appears in the result decoded
as UTF-8 — the fixed default of `bytes.decode()` — which coincides with the
platform default only on platforms whose default encoding is UTF-8. -/
theorem nonempty_stream_decoded_utf8 (command : String) (env : Env)
    (out : ProcessOutcome) (s se : String)
    (hs : env.spawn = SpawnStep.ok) (hc : env.comm = CommStep.ok out)
    (hne : out.stdoutBytes ≠ [])
    (h1 : pyDecode out.stdoutBytes = Except.ok s)
    (h2 : decodeOrEmpty pyDecode out.stderrBytes = Except.ok se) :
    ∃ d, run_command command env = Except.ok d ∧
      dictGet d "stdout" = some (PyVal.vstr s) := by
  have hdo : decodeOrEmpty pyDecode out.stdoutBytes = Except.ok s := by
    cases hb : out.stdoutBytes with
    | nil => exact absurd hb hne
    | cons a l => rw [hb] at h1; simpa [decodeOrEmpty, pyTruthy] using h1
  obtain ⟨spawn, comm⟩ := env
  cases hs
  cases hc
  exact ⟨okResult s se out.returncode,
    by simp [run_command, run_command_with, hdo, h2], rfl⟩

/-- C5 amended witness: the UTF-8 bytes `[0xC3, 0xA9]` come back as the
single character `é`. -/
theorem nonempty_stream_decoded_utf8_w :
    ([195, 169] : List Nat) ≠ [] ∧
    pyDecode [195, 169] = Except.ok "é" ∧
    (∃ d, run_command "printf accent"
        ⟨SpawnStep.ok, CommStep.ok ⟨[195, 169], [], 0⟩⟩ = Except.ok d ∧
      dictGet d "stdout" = some (PyVal.vstr "é")) :=
  ⟨by decide, rfl,
    nonempty_stream_decoded_utf8 "printf accent"
      ⟨SpawnStep.ok, CommStep.ok ⟨[195, 169], [], 0⟩⟩
      ⟨[195, 169], [], 0⟩ "é" "" rfl rfl (by decide) rfl rfl⟩

/-- C6: when no fault outside the `Exception` class occurs, every call
returns exactly one dict (never a propagated fault), and that dict always
carries a string value under `stdout`, a string value under `stderr`, and
an integer value under `return_code` — on the failure path as much as on
the success path. -/
theorem run_command_total_wellformed (command : String) (env : Env)
    (h : noBaseFault env = true) :
    ∃ d so se rc, run_command command env = Except.ok d ∧
      dictGet d "stdout" = some (PyVal.vstr so) ∧
      dictGet d "stderr" = some (PyVal.vstr se) ∧
      dictGet d "return_code" = some (PyVal.vint rc) := by
  obtain ⟨spawn, comm⟩ := env
  cases spawn with
  | base m => simp [noBaseFault] at h
  | exc m =>
    exact ⟨errResult m, "", "Error executing command: " ++ m, -1, rfl, rfl, rfl, rfl⟩
  | ok =>
    cases comm with
    | base m => simp [noBaseFault] at h
    | exc m =>
      exact ⟨errResult m, "", "Error executing command: " ++ m, -1, rfl, rfl, rfl, rfl⟩
    | ok out =>
      cases h1 : decodeOrEmpty pyDecode out.stdoutBytes with
      | error m =>
        exact ⟨errResult m, "", "Error executing command: " ++ m, -1,
          by simp [run_command, run_command_with, h1], rfl, rfl, rfl⟩
      | ok so =>
        cases h2 : decodeOrEmpty pyDecode out.stderrBytes with
        | error m =>
          exact ⟨errResult m, "", "Error executing command: " ++ m, -1,
            by simp [run_command, run_command_with, h1, h2], rfl, rfl, rfl⟩
        | ok se =>
          exact ⟨okResult so se out.returncode, so, se, out.returncode,
            by simp [run_command, run_command_with, h1, h2], rfl, rfl, rfl⟩

/-- C6 witness: a silent successful child yields the well-formed
`("", "", 0)` dict. -/
theorem run_command_total_wellformed_w :
    noBaseFault ⟨SpawnStep.ok, CommStep.ok ⟨[], [], 0⟩⟩ = true ∧
    (∃ d so se rc, run_command "true" ⟨SpawnStep.ok, CommStep.ok ⟨[], [], 0⟩⟩
        = Except.ok d ∧
      dictGet d "stdout" = some (PyVal.vstr so) ∧
      dictGet d "stderr" = some (PyVal.vstr se) ∧
      dictGet d "return_code" = some (PyVal.vint rc)) :=
  ⟨rfl, run_command_total_wellformed "true"
    ⟨SpawnStep.ok, CommStep.ok ⟨[], [], 0⟩⟩ rfl⟩

/-- C7: the invocation has no state of its own — its result is a function
of the command and the observed child-process behaviour alone. Two
invocations with the same command observing the same behaviour return
identical dicts: identical stdout, stderr and return code. -/
theorem same_behaviour_same_result (command : String) (env1 env2 : Env)
    (h : env1 = env2) :
    (runTwice command env1).1 = (runTwice command env2).2 := by
  subst h
  rfl

/-- C7 witness: two runs of the same command against the same observed
behaviour. -/
theorem same_behaviour_same_result_w :
    (⟨SpawnStep.ok, CommStep.ok ⟨[104, 105, 10], [], 0⟩⟩ : Env)
        = ⟨SpawnStep.ok, CommStep.ok ⟨[104, 105, 10], [], 0⟩⟩ ∧
    (runTwice "echo hi" ⟨SpawnStep.ok, CommStep.ok ⟨[104, 105, 10], [], 0⟩⟩).1
      = (runTwice "echo hi" ⟨SpawnStep.ok, CommStep.ok ⟨[104, 105, 10], [], 0⟩⟩).2 :=
  ⟨rfl, same_behaviour_same_result "echo hi"
    ⟨SpawnStep.ok, CommStep.ok ⟨[104, 105, 10], [], 0⟩⟩
    ⟨SpawnStep.ok, CommStep.ok ⟨[104, 105, 10], [], 0⟩⟩ rfl⟩

/-- C8: on the success path the reported `process.returncode` flows into
the result unchanged: no clamping, no range restriction, for every integer
the process object can report — including the negative values POSIX
signal termination produces. -/
theorem returncode_passed_unchanged (command : String) (env : Env)
    (out : ProcessOutcome) (so se : String)
    (hs : env.spawn = SpawnStep.ok) (hc : env.comm = CommStep.ok out)
    (h1 : decodeOrEmpty pyDecode out.stdoutBytes = Except.ok so)
    (h2 : decodeOrEmpty pyDecode out.stderrBytes = Except.ok se) :
    ∃ d, run_command command env = Except.ok d ∧
      dictGet d "return_code" = some (PyVal.vint out.returncode) := by
  obtain ⟨spawn, comm⟩ := env
  cases hs
  cases hc
  exact ⟨okResult so se out.returncode,
    by simp [run_command, run_command_with, h1, h2], rfl⟩

/-- C8 witness: a child terminated by signal 11 is reported as `-11` and
returned as `-11`. -/
theorem returncode_passed_unchanged_w :
    decodeOrEmpty pyDecode [] = Except.ok "" ∧
    (∃ d, run_command "crashingprogram"
        ⟨SpawnStep.ok, CommStep.ok ⟨[], [], -11⟩⟩ = Except.ok d ∧
      dictGet d "return_code" = some (PyVal.vint (-11))) :=
  ⟨rfl, returncode_passed_unchanged "crashingprogram"
    ⟨SpawnStep.ok, CommStep.ok ⟨[], [], -11⟩⟩ ⟨[], [], -11⟩ "" "" rfl rfl rfl rfl⟩

/-- C9: the handler is `except Exception`, so a fault outside that class —
task cancellation, keyboard interrupt — raised at either await point is not
converted into the error-shaped dict and propagates to the caller. -/
theorem base_faults_propagate (command : String) (env : Env) (m : String)
    (h : env.spawn = SpawnStep.base m ∨
      (env.spawn = SpawnStep.ok ∧ env.comm = CommStep.base m)) :
    run_command command env = Except.error m := by
  obtain ⟨spawn, comm⟩ := env
  rcases h with h1 | ⟨h1, h2⟩
  · cases h1
    rfl
  · cases h1
    cases h2
    rfl

/-- C9 witness: a keyboard interrupt during process creation escapes
`run_command`. -/
theorem base_faults_propagate_w :
    ((⟨SpawnStep.base "KeyboardInterrupt", CommStep.ok ⟨[], [], 0⟩⟩ : Env).spawn
        = SpawnStep.base "KeyboardInterrupt" ∨
      ((⟨SpawnStep.base "KeyboardInterrupt", CommStep.ok ⟨[], [], 0⟩⟩ : Env).spawn
          = SpawnStep.ok ∧
        (⟨SpawnStep.base "KeyboardInterrupt", CommStep.ok ⟨[], [], 0⟩⟩ : Env).comm
          = CommStep.base "KeyboardInterrupt")) ∧
    run_command "sleep 100"
        ⟨SpawnStep.base "KeyboardInterrupt", CommStep.ok ⟨[], [], 0⟩⟩
      = Except.error "KeyboardInterrupt" :=
  ⟨Or.inl rfl, base_faults_propagate "sleep 100"
    ⟨SpawnStep.base "KeyboardInterrupt", CommStep.ok ⟨[], [], 0⟩⟩
    "KeyboardInterrupt" (Or.inl rfl)⟩
